import Mathlib

/-!
Verification of the inter-company invoice mirroring module
(`account_invoice_inter_company/models/account_move.py`).

The Python model is shallowly embedded: the database is an explicit `Env`
value (companies, partners, journals, account moves), every ORM operation
is a pure function, and fallible operations return `Except Err Env`.
An `Except.error` result models a raised `UserError`: Odoo processes the
whole request in a single transaction, so a raised error rolls every
change of the request back and no partial state persists.

External services (the ledger engine computing document totals, the
access-rule machinery deciding cross-company product visibility, the
number sequence assigning names) are passed to the operations as explicit
parameters, never baked into the embedding.

Monetary amounts are rationals.  Odoo's `float_compare` /`float_round`
(HALF-UP) are modelled over `ℚ` with `round`; binary floating point
artifacts are out of scope of the claims under verification.
-/

namespace MultiCompany

/-- Odoo `float_round` at a rounding step `r` (e.g. `1/100`), HALF-UP. -/
def float_round (x r : ℚ) : ℚ := r * (round (x / r) : ℤ)

/-- Odoo `float_compare(a, b, precision_rounding = r)`: round both sides to
the step `r` and return the sign of the difference. -/
def float_compareR (a b r : ℚ) : Int :=
  let a' := float_round a r
  let b' := float_round b r
  if a' = b' then 0 else if a' < b' then -1 else 1

/-- Odoo `float_compare(a, b, precision_digits = p)`. -/
def float_compareD (a b : ℚ) (p : Nat) : Int :=
  float_compareR a b (1 / 10 ^ p)

/-- One invoice line of an `account.move` (`account.move.line`).  Only the
fields the module reads are kept.  `display_type` is `none` for regular
product lines and `some "line_section"` / `some "line_note"` for
section/note lines (the Python truthiness test `not x.display_type`). -/
structure InvoiceLine where
  product_id : Option Nat
  name : String
  display_type : Option String
  quantity : ℚ
  price_unit : ℚ
  deriving DecidableEq, Repr

/-- The structured content of the warning message `message_post`ed on the
mirror when the totals differ (source lines 145-157): it carries both
totals and identifies the source document and source company. -/
structure ChatMessage where
  dest_amount_total : ℚ
  invoice_name : String
  company_name : String
  amount_total : ℚ
  deriving DecidableEq, Repr

/-- An `account.move` record with the fields the module reads or writes.
`currency_rounding` stands for `currency_id.rounding`. -/
structure AccountMove where
  id : Nat
  name : String
  move_type : String
  company_id : Nat
  partner_id : Nat
  commercial_partner_id : Nat
  state : String
  auto_generated : Bool
  auto_invoice_id : Option Nat
  amount_total : ℚ
  amount_untaxed : ℚ
  currency_rounding : ℚ
  invoice_origin : String
  invoice_line_ids : List InvoiceLine
  messages : List ChatMessage
  deriving DecidableEq, Repr

/-- A `res.company` record with the policy flags the module consults. -/
structure Company where
  id : Nat
  name : String
  partner_id : Nat
  company_share_product : Bool
  invoice_auto_validation : Bool
  intercompany_invoice_user_id : Option Nat
  deriving DecidableEq, Repr

/-- A `res.partner` record (only what the error messages read). -/
structure Partner where
  id : Nat
  display_name : String
  deriving DecidableEq, Repr

/-- An `account.journal` record (type and owning company). -/
structure Journal where
  id : Nat
  jtype : String
  company_id : Nat
  deriving DecidableEq, Repr

/-- The database state.  `nextId` is the id the next created move gets;
`precision` is `decimal.precision.precision_get("Account")`. -/
structure Env where
  companies : List Company
  partners : List Partner
  journals : List Journal
  moves : List AccountMove
  nextId : Nat
  precision : Nat
  deriving DecidableEq, Repr

/-- The `UserError`s (and the `ValueError` of a singleton violation) the
module can raise, with the data their messages carry. -/
inductive Err where
  /-- "You cannot create invoice in company ... with product ... because it
  is not multicompany" (lines 82-91). -/
  | productNotMulticompany (dest_company_name : String) (product_id : Nat)
  /-- Reading `.state` on a multi-record recordset (line 109) raises
  `ValueError: Expected singleton`. -/
  | expectedSingleton
  /-- "The invoice line ... doesn't have a product" (lines 121-128). -/
  | lineWithoutProduct (line_name : String)
  /-- "Please define ... journal for this company ..." (lines 195-205). -/
  | journalNotFound (journal_type : String) (dest_company_name : String)
  /-- "You can't modify this invoice as it has an inter company invoice
  that's in posted state ..." (lines 246-256). -/
  | postedMirrorExists (invoice_name : String) (partner_name : String)
  /-- "This is an autogenerated multi company invoice and you're trying to
  modify the amount ..." (lines 294-301). -/
  | amountDivergesFromSource (source_name : String)
  /-- Recursion fuel exhausted (an artifact of the embedding of the
  mutually recursive `button_cancel`; never reached with enough fuel). -/
  | outOfFuel
  deriving DecidableEq, Repr

/-- Look a move up by id (dereferencing a record handle). -/
def findMove (env : Env) (i : Nat) : Option AccountMove :=
  env.moves.find? (fun m => m.id == i)

/-- Name of a company, as read by the message builders. -/
def companyName (env : Env) (cid : Nat) : String :=
  ((env.companies.find? (fun c => c.id == cid)).map (fun c => c.name)).getD ""

/-- `partner_id` of a company (`company.partner_id`). -/
def companyPartner (env : Env) (cid : Nat) : Nat :=
  ((env.companies.find? (fun c => c.id == cid)).map (fun c => c.partner_id)).getD 0

/-- `partner.display_name`, as read by the `button_draft` error message. -/
def partnerDisplayName (env : Env) (pid : Nat) : String :=
  ((env.partners.find? (fun p => p.id == pid)).map (fun p => p.display_name)).getD ""

/-- Line 29-36, `_find_company_from_invoice_partner`: the first managed
company whose `partner_id` equals the invoice's commercial partner. -/
def _find_company_from_invoice_partner (env : Env) (m : AccountMove) : Option Company :=
  env.companies.find? (fun c => c.partner_id == m.commercial_partner_id)

/-- Line 42: the four supported move types. -/
def supportedTypes : List String :=
  ["out_invoice", "in_invoice", "out_refund", "in_refund"]

/-- Lines 160-168, `_get_destination_invoice_type`: `MAP_INVOICE_TYPE.get`,
`none` for any unsupported type. -/
def _get_destination_invoice_type (t : String) : Option String :=
  if t = "out_invoice" then some "in_invoice"
  else if t = "in_invoice" then some "out_invoice"
  else if t = "out_refund" then some "in_refund"
  else if t = "in_refund" then some "out_refund"
  else none

/-- Lines 170-178, `_get_destination_journal_type`: `MAP_JOURNAL_TYPE.get`. -/
def _get_destination_journal_type (t : String) : Option String :=
  if t = "out_invoice" then some "purchase"
  else if t = "in_invoice" then some "sale"
  else if t = "out_refund" then some "purchase"
  else if t = "in_refund" then some "sale"
  else none

/-- The journal search of `_prepare_invoice_data` (lines 190-193):
first journal of the given type owned by the destination company. -/
def findJournal (env : Env) (jt : String) (cid : Nat) : Option Journal :=
  env.journals.find? (fun j => j.jtype == jt && j.company_id == cid)

/-- The search of line 105-107: every move with `auto_invoice_id` equal to
the source and owned by the destination company, any state. -/
def mirrorsFor (env : Env) (srcId destId : Nat) : List AccountMove :=
  env.moves.filter (fun m => m.auto_invoice_id == some srcId && m.company_id == destId)

/-- The search of lines 51-57: posted mirrors for (source, destination). -/
def postedMirrorsFor (env : Env) (srcId destId : Nat) : List AccountMove :=
  env.moves.filter (fun m =>
    m.auto_invoice_id == some srcId && m.company_id == destId && m.state == "posted")

/-- `unlink` of a single record (line 111, with `force_delete=True`):
remove the move with the given id. -/
def removeMoveById (env : Env) (i : Nat) : Env :=
  { env with moves := env.moves.filter (fun m => m.id != i) }

/-- Origin note of a freshly built mirror (lines 223-224). -/
def mkInvoiceOrigin (company invoice : String) : String :=
  company ++ " - Invoice: " ++ invoice

/-- Origin note written on a mirror when its source is cancelled
(lines 269-275). -/
def mkCanceledOrigin (company invoice : String) : String :=
  company ++ " - Canceled Invoice: " ++ invoice

/-- Stand-in for the name the journal sequence assigns to a newly created
move when no number is forced (external sequence service). -/
def freshName (n : Nat) : String := "NEW/" ++ toString n

/-- Lines 76-91: the per-line product visibility loop of
`_check_intercompany_product`.  `vis destCompany product` is the external
access-rule oracle; a line without a product passes (reading
`product_tmpl_id` of an empty recordset checks nothing). -/
def checkProductLines (vis : Nat → Nat → Bool) (dest : Company) :
    List InvoiceLine → Except Err Unit
  | [] => .ok ()
  | l :: ls =>
    match l.product_id with
    | none => checkProductLines vis dest ls
    | some p =>
      if vis dest.id p then checkProductLines vis dest ls
      else .error (.productNotMulticompany dest.name p)

/-- Lines 70-91, `_check_intercompany_product`: a no-op when the
destination shares product master data, otherwise each line's product must
be visible in the destination company. -/
def _check_intercompany_product (vis : Nat → Nat → Bool) (src : AccountMove)
    (dest : Company) : Except Err Unit :=
  if dest.company_share_product then .ok ()
  else checkProductLines vis dest src.invoice_line_ids

/-- The header field projection of `_prepare_invoice_data` (lines
206-238): mirror's counterpart partner is the source company's own
partner, type is the mapped type, currency (hence rounding) is copied
verbatim, the origin note names the source company and number, and the
provenance fields `auto_invoice_id` / `auto_generated` are set.  The id,
name, lines and totals are filled in at create time by `buildMirror`. -/
def preparedHeader (env : Env) (src : AccountMove) (dest : Company) : AccountMove :=
  { id := 0
  , name := ""
  , move_type := (_get_destination_invoice_type src.move_type).getD ""
  , company_id := dest.id
  , partner_id := companyPartner env src.company_id
  , commercial_partner_id := companyPartner env src.company_id
  , state := "draft"
  , auto_generated := true
  , auto_invoice_id := some src.id
  , amount_total := 0
  , amount_untaxed := 0
  , currency_rounding := src.currency_rounding
  , invoice_origin := mkInvoiceOrigin (companyName env src.company_id) src.name
  , invoice_line_ids := []
  , messages := [] }

/-- Lines 180-238, `_prepare_invoice_data`: require a destination journal
of the mapped type (lines 190-205), then project the header fields. -/
def _prepare_invoice_data (env : Env) (src : AccountMove) (dest : Company) :
    Except Err AccountMove :=
  let dest_journal_type := (_get_destination_journal_type src.move_type).getD ""
  match findJournal env dest_journal_type dest.id with
  | none => .error (.journalNotFound dest_journal_type dest.name)
  | some _j => .ok (preparedHeader env src dest)

/-- Lines 317-355, `_prepare_account_move_line`: the destination line is
the source line re-entered field by field through the form engine. -/
def _prepare_account_move_line (l : InvoiceLine) : InvoiceLine :=
  { product_id := l.product_id
  , name := l.name
  , display_type := l.display_type
  , quantity := l.quantity
  , price_unit := l.price_unit }

/-- Lines 118-131: build the destination line values, raising at the first
line that has no product.  No line is created before the loop finishes
(the batch create of line 132 happens after). -/
def prepareLines : List InvoiceLine → Except Err (List InvoiceLine)
  | [] => .ok []
  | l :: ls =>
    match l.product_id with
    | none => .error (.lineWithoutProduct l.name)
    | some _ =>
      match prepareLines ls with
      | .error e => .error e
      | .ok rest => .ok (_prepare_account_move_line l :: rest)

/-- The mirror record as created at line 116: the prepared header with a
fresh id, the forced number when one was reclaimed (line 114-115) or the
sequence's name otherwise, the cloned lines, and the totals the ledger
computes for them (`destTotals` is the external total oracle, standing
for `_move_autocomplete_invoice_lines_values`, line 133). -/
def createdMirror (destTotals : ℚ × ℚ) (env : Env) (src : AccountMove)
    (dest : Company) (force_number : Option String) (dest_lines : List InvoiceLine) :
    AccountMove :=
  { preparedHeader env src dest with
      id := env.nextId
    , name := force_number.getD (freshName env.nextId)
    , invoice_line_ids := dest_lines
    , amount_total := destTotals.1
    , amount_untaxed := destTotals.2 }

/-- The reconciliation step, lines 134-157: auto-post when the totals
agree at the configured accounting precision and the destination company
auto-validates; otherwise, when (and only when) the totals differ, post a
warning message carrying both totals, the source number and the source
company name. -/
def reconcileMirror (env : Env) (src : AccountMove) (dest : Company)
    (d : AccountMove) : AccountMove :=
  let cmp := float_compareD src.amount_total d.amount_total env.precision
  if dest.invoice_auto_validation = true ∧ cmp = 0 then
    { d with state := "posted" }
  else if cmp ≠ 0 then
    { d with messages := d.messages ++
        [{ dest_amount_total := d.amount_total
         , invoice_name := src.name
         , company_name := companyName env src.company_id
         , amount_total := src.amount_total }] }
  else d

/-- Lines 113-158 of `_inter_company_create_invoice`, after the
stale-mirror reclamation: prepare the header (journal check), build the
line values (raising at a product-less line before any line is created),
create the mirror with the ledger-computed totals, then reconcile.  The
`action_post` of line 139 (inside `reconcileMirror`) runs on a freshly
created `auto_generated` mirror, for which the intercompany loop
short-circuits (line 47), so it reduces to the core engine's posting,
i.e. setting the state. -/
def buildMirror (destTotals : ℚ × ℚ) (env : Env) (src : AccountMove)
    (dest : Company) (force_number : Option String) : Except Err Env :=
  match _prepare_invoice_data env src dest with
  | .error e => .error e
  | .ok _data =>
    match prepareLines (src.invoice_line_ids.filter (fun l => l.display_type.isNone)) with
    | .error e => .error e
    | .ok dest_lines =>
      let dest_invoice :=
        reconcileMirror env src dest (createdMirror destTotals env src dest force_number dest_lines)
      .ok { env with moves := env.moves ++ [dest_invoice], nextId := env.nextId + 1 }

/-- Lines 93-158, `_inter_company_create_invoice`: check product
visibility, reclaim a stale mirror (lines 103-111: the search is not
limited, and `inter_invoice.state` on a multi-record result raises
`Expected singleton`; a single draft/cancel mirror is hard-deleted and its
number reused), then build the new mirror. -/
def _inter_company_create_invoice (vis : Nat → Nat → Bool) (destTotals : ℚ × ℚ)
    (env : Env) (src : AccountMove) (dest : Company) : Except Err Env :=
  match _check_intercompany_product vis src dest with
  | .error e => .error e
  | .ok () =>
    match mirrorsFor env src.id dest.id with
    | [] => buildMirror destTotals env src dest none
    | [m0] =>
      if m0.state == "draft" || m0.state == "cancel" then
        buildMirror destTotals (removeMoveById env m0.id) src dest (some m0.name)
      else
        buildMirror destTotals env src dest none
    | _ :: _ :: _ => .error .expectedSingleton

/-- The core engine's `action_post` (line 40, `super().action_post()`):
set the state of every posted record to `"posted"`. -/
def superActionPost (env : Env) (ids : List Nat) : Env :=
  { env with moves := env.moves.map (fun m =>
      if m.id ∈ ids then { m with state := "posted" } else m) }

/-- The body of the loop of lines 43-67 for one source invoice: skip
unsupported types, skip when no destination company resolves or the
invoice is itself auto-generated, skip when a posted mirror already
exists, otherwise run the mirror builder (as the intercompany user or
sudo, with the amount-difference check suppressed). -/
def action_post_one (vis : Nat → Nat → Bool) (totalsOf : Nat → ℚ × ℚ)
    (env : Env) (i : Nat) : Except Err Env :=
  match findMove env i with
  | none => .ok env
  | some src =>
    if src.move_type ∈ supportedTypes then
      match _find_company_from_invoice_partner env src with
      | none => .ok env
      | some dest =>
        if src.auto_generated then .ok env
        else if (postedMirrorsFor env src.id dest.id).isEmpty then
          _inter_company_create_invoice vis (totalsOf i) env src dest
        else .ok env
    else .ok env

/-- The loop of lines 43-67 over the batch, in order.  There is no
exception handler in the Python loop: a raised `UserError` propagates and
aborts the remaining iterations (and the transaction). -/
def action_post_loop (vis : Nat → Nat → Bool) (totalsOf : Nat → ℚ × ℚ) :
    Env → List Nat → Except Err Env
  | env, [] => .ok env
  | env, i :: rest =>
    match action_post_one vis totalsOf env i with
    | .error e => .error e
    | .ok env' => action_post_loop vis totalsOf env' rest

/-- Lines 38-68, `action_post`: the core engine posts the batch, then each
source invoice is considered for mirroring in turn. -/
def action_post (vis : Nat → Nat → Bool) (totalsOf : Nat → ℚ × ℚ)
    (env : Env) (ids : List Nat) : Except Err Env :=
  action_post_loop vis totalsOf (superActionPost env ids) ids

/-- The core engine's `write` (line 282, `super().write(vals)`): apply the
update to every record of the set.  `upd` stands for the written `vals`. -/
def applyWrite (env : Env) (ids : List Nat) (upd : AccountMove → AccountMove) : Env :=
  { env with moves := env.moves.map (fun m => if m.id ∈ ids then upd m else m) }

/-- Lines 286-301: the amount check for one written move that is a mirror:
compare its `amount_untaxed` with its source's at the move's own
`currency_id.rounding`.  A move without `auto_invoice_id` is skipped
(line 285, `filtered("auto_invoice_id")`); Odoo's referential integrity
keeps the source dereferenceable. -/
def writeCheckOne (env : Env) (m : AccountMove) : Except Err Unit :=
  match m.auto_invoice_id with
  | none => .ok ()
  | some sid =>
    match findMove env sid with
    | none => .ok ()
    | some src =>
      if float_compareR m.amount_untaxed src.amount_untaxed m.currency_rounding = 0 then
        .ok ()
      else .error (.amountDivergesFromSource src.name)

/-- The loop of line 285 over the written records, in order. -/
def writeCheckAll (env : Env) : List Nat → Except Err Unit
  | [] => .ok ()
  | i :: rest =>
    match findMove env i with
    | none => writeCheckAll env rest
    | some m =>
      match writeCheckOne env m with
      | .error e => .error e
      | .ok () => writeCheckAll env rest

/-- Lines 281-302, `write`: apply the vals, then, unless the context
carries `skip_check_amount_difference`, reject when any written mirror's
untaxed total diverges from its source's. -/
def write (env : Env) (ids : List Nat) (upd : AccountMove → AccountMove)
    (skip_check_amount_difference : Bool) : Except Err Env :=
  let env1 := applyWrite env ids upd
  if skip_check_amount_difference then .ok env1
  else
    match writeCheckAll env1 ids with
    | .error e => .error e
    | .ok () => .ok env1

/-- The core engine's `button_draft` (line 257): set the states to draft. -/
def superButtonDraft (env : Env) (ids : List Nat) : Env :=
  { env with moves := env.moves.map (fun m =>
      if m.id ∈ ids then { m with state := "draft" } else m) }

/-- The guard loop of lines 241-256: for each reset move, the first posted
mirror referencing it (search with `limit=1`) aborts the reset. -/
def buttonDraftCheck (env : Env) : List Nat → Except Err Unit
  | [] => .ok ()
  | i :: rest =>
    match env.moves.find? (fun m => m.auto_invoice_id == some i && m.state == "posted") with
    | some p => .error (.postedMirrorExists p.name (partnerDisplayName env p.partner_id))
    | none => buttonDraftCheck env rest

/-- Lines 240-257, `button_draft`. -/
def button_draft (env : Env) (ids : List Nat) : Except Err Env :=
  match buttonDraftCheck env ids with
  | .error e => .error e
  | .ok () => .ok (superButtonDraft env ids)

/-- The core engine's `button_cancel` (line 279): set the states to cancel. -/
def superButtonCancel (env : Env) (ids : List Nat) : Env :=
  { env with moves := env.moves.map (fun m =>
      if m.id ∈ ids then { m with state := "cancel" } else m) }

/-- The vals of the write of lines 267-277: rewrite `invoice_origin`. -/
def setCanceledOrigin (note : String) (m : AccountMove) : AccountMove :=
  { m with invoice_origin := note }

mutual

/-- Lines 259-279, `button_cancel`: propagate the cancellation to every
mirror of every cancelled source, then let the core engine cancel the
batch.  `inter_invoice.button_cancel()` (line 278) re-enters this very
method, hence the fuel: every nested call runs on one unit less, and
`outOfFuel` is only reached when the fuel underestimates the (finite)
chain of mirrors. -/
def button_cancel : Nat → Env → List Nat → Except Err Env
  | 0, _, _ => .error .outOfFuel
  | fuel + 1, env, ids =>
    match cancelPropagateAll fuel env ids with
    | .error e => .error e
    | .ok env' => .ok (superButtonCancel env' ids)

/-- The loop of line 260 over the cancelled batch, in order. -/
def cancelPropagateAll : Nat → Env → List Nat → Except Err Env
  | 0, _, _ => .error .outOfFuel
  | _ + 1, env, [] => .ok env
  | fuel + 1, env, i :: rest =>
    match cancelPropagateOne fuel env i with
    | .error e => .error e
    | .ok env' => cancelPropagateAll fuel env' rest

/-- Lines 261-278 for one cancelled source: when its counterpart partner
resolves to a managed company and it is not itself a mirror, every move
referencing it via `auto_invoice_id` (any company, any state) is put
through draft, origin rewrite, cancel. -/
def cancelPropagateOne : Nat → Env → Nat → Except Err Env
  | 0, _, _ => .error .outOfFuel
  | fuel + 1, env, i =>
    match findMove env i with
    | none => .ok env
    | some inv =>
      match _find_company_from_invoice_partner env inv with
      | none => .ok env
      | some _company =>
        if inv.auto_generated then .ok env
        else
          cancelMirrorsLoop fuel env inv
            ((env.moves.filter (fun m => m.auto_invoice_id == some i)).map (fun m => m.id))

/-- The inner loop of lines 263-278: for each mirror of the cancelled
source, `button_draft` it, rewrite its origin note (through the overridden
`write`, whose amount check runs: the context carries no skip flag), then
`button_cancel` it. -/
def cancelMirrorsLoop : Nat → Env → AccountMove → List Nat → Except Err Env
  | 0, _, _, _ => .error .outOfFuel
  | _ + 1, env, _, [] => .ok env
  | fuel + 1, env, inv, mid :: rest =>
    match button_draft env [mid] with
    | .error e => .error e
    | .ok e1 =>
      match write e1 [mid]
          (setCanceledOrigin (mkCanceledOrigin (companyName e1 inv.company_id) inv.name))
          false with
      | .error e => .error e
      | .ok e2 =>
        match button_cancel fuel e2 [mid] with
        | .error e => .error e
        | .ok e3 => cancelMirrorsLoop fuel e3 inv rest

end

/-! ### Concrete worlds used to instantiate the theorems -/

/-- Product visibility oracle granting everything. -/
def visAll : Nat → Nat → Bool := fun _ _ => true

/-- Total oracle: the ledger computes 200/200 for every built mirror. -/
def totals200 : Nat → ℚ × ℚ := fun _ => ((200 : ℚ), (200 : ℚ))

def partnerA : Partner := { id := 101, display_name := "Partner A" }

def partnerB : Partner := { id := 102, display_name := "Partner B" }

def partnerC : Partner := { id := 103, display_name := "Partner C" }

def companyA : Company :=
  { id := 1, name := "A", partner_id := 101, company_share_product := true
  , invoice_auto_validation := true, intercompany_invoice_user_id := none }

def companyB : Company :=
  { id := 2, name := "B", partner_id := 102, company_share_product := true
  , invoice_auto_validation := true, intercompany_invoice_user_id := none }

/-- Like `companyB` but with auto-validation disabled. -/
def companyBNoAuto : Company :=
  { id := 2, name := "B", partner_id := 102, company_share_product := true
  , invoice_auto_validation := false, intercompany_invoice_user_id := none }

/-- A second destination company, used by the batch counterexample. -/
def companyC : Company :=
  { id := 3, name := "C", partner_id := 103, company_share_product := true
  , invoice_auto_validation := false, intercompany_invoice_user_id := none }

def journalPurchaseB : Journal := { id := 1, jtype := "purchase", company_id := 2 }

def journalPurchaseC : Journal := { id := 2, jtype := "purchase", company_id := 3 }

def lineProd : InvoiceLine :=
  { product_id := some 7, name := "Widget line", display_type := none
  , quantity := 2, price_unit := 100 }

def lineNoProd : InvoiceLine :=
  { product_id := none, name := "Bare line", display_type := none
  , quantity := 1, price_unit := 50 }

/-- A customer invoice of company A whose counterpart partner is company
B's partner: the canonical mirroring source. -/
def srcInv : AccountMove :=
  { id := 10, name := "INV-A-1", move_type := "out_invoice", company_id := 1
  , partner_id := 102, commercial_partner_id := 102, state := "draft"
  , auto_generated := false, auto_invoice_id := none
  , amount_total := 200, amount_untaxed := 200, currency_rounding := 1 / 100
  , invoice_origin := "", invoice_line_ids := [lineProd], messages := [] }

/-- A posted mirror of `srcInv` in company B. -/
def postedMirror20 : AccountMove :=
  { id := 20, name := "MIR-B-20", move_type := "in_invoice", company_id := 2
  , partner_id := 101, commercial_partner_id := 101, state := "posted"
  , auto_generated := true, auto_invoice_id := some 10
  , amount_total := 200, amount_untaxed := 200, currency_rounding := 1 / 100
  , invoice_origin := "A - Invoice: INV-A-1", invoice_line_ids := [lineProd]
  , messages := [] }

/-- A draft mirror of `srcInv` in company B (stale, reclaimable). -/
def draftMirror22 : AccountMove :=
  { id := 22, name := "MIR-B-22", move_type := "in_invoice", company_id := 2
  , partner_id := 101, commercial_partner_id := 101, state := "draft"
  , auto_generated := true, auto_invoice_id := some 10
  , amount_total := 200, amount_untaxed := 200, currency_rounding := 1 / 100
  , invoice_origin := "A - Invoice: INV-A-1", invoice_line_ids := [lineProd]
  , messages := [] }

/-- World for the idempotence claim: the source and its posted mirror. -/
def envPosted : Env :=
  { companies := [companyA, companyB], partners := [partnerA, partnerB]
  , journals := [journalPurchaseB]
  , moves := [srcInv, postedMirror20], nextId := 30, precision := 2 }

/-- World for the reclamation claim: the source and a stale draft mirror. -/
def envStale : Env :=
  { companies := [companyA, companyB], partners := [partnerA, partnerB]
  , journals := [journalPurchaseB]
  , moves := [srcInv, draftMirror22], nextId := 30, precision := 2 }

/-- World with two mirrors for the same (source, destination) pair: the
momentary race the reclamation step does not survive. -/
def envTwoMirrors : Env :=
  { companies := [companyA, companyB], partners := [partnerA, partnerB]
  , journals := [journalPurchaseB]
  , moves := [srcInv, draftMirror22, { draftMirror22 with id := 23, name := "MIR-B-23" }]
  , nextId := 30, precision := 2 }

/-- World with no pre-existing mirror. -/
def envFresh : Env :=
  { companies := [companyA, companyB], partners := [partnerA, partnerB]
  , journals := [journalPurchaseB]
  , moves := [srcInv], nextId := 30, precision := 2 }

/-- World for the no-warning counterexample: destination B does not
auto-validate, totals agree. -/
def envNoAuto : Env :=
  { companies := [companyA, companyBNoAuto], partners := [partnerA, partnerB]
  , journals := [journalPurchaseB]
  , moves := [srcInv], nextId := 30, precision := 2 }

/-- Source invoice whose only line has no product. -/
def srcNoProd : AccountMove := { srcInv with id := 14, invoice_line_ids := [lineNoProd] }

/-- World for the line-completeness claim. -/
def envNoProd : Env :=
  { companies := [companyA, companyB], partners := [partnerA, partnerB]
  , journals := [journalPurchaseB]
  , moves := [srcNoProd], nextId := 30, precision := 2 }

/-- Batch world: invoice 11 resolves to destination B which has NO
purchase journal, invoice 12 resolves to destination C which has one. -/
def envBatch : Env :=
  { companies := [companyA, companyB, companyC], partners := [partnerA, partnerB, partnerC]
  , journals := [journalPurchaseC]
  , moves := [{ srcInv with id := 11, name := "INV-A-11" }
            , { srcInv with id := 12, name := "INV-A-12", commercial_partner_id := 103 }]
  , nextId := 30, precision := 2 }

/-- A mirror whose currency rounds to whole units while its source rounds
to cents: its untaxed total diverges from the source's at the source's
rounding but not at its own. -/
def mirrorCoarse : AccountMove :=
  { id := 21, name := "MIR-B-21", move_type := "in_invoice", company_id := 2
  , partner_id := 101, commercial_partner_id := 101, state := "draft"
  , auto_generated := true, auto_invoice_id := some 15
  , amount_total := 100, amount_untaxed := 100, currency_rounding := 1
  , invoice_origin := "", invoice_line_ids := [lineProd], messages := [] }

/-- Its source: untaxed total 100.4, cent rounding. -/
def srcFine : AccountMove :=
  { srcInv with
      id := 15, name := "INV-A-15", amount_total := 100.4
    , amount_untaxed := 100.4, currency_rounding := 1 / 100 }

/-- World for the edit-lock counterexample. -/
def envRounding : Env :=
  { companies := [companyA, companyB], partners := [partnerA, partnerB]
  , journals := [journalPurchaseB]
  , moves := [srcFine, mirrorCoarse], nextId := 30, precision := 2 }

/-- A journal entry (unsupported move type): present in a batch, it is
posted by the core engine but never considered for mirroring. -/
def moveEntry13 : AccountMove :=
  { srcInv with id := 13, name := "MISC-13", move_type := "entry" }

/-- Batch world with a leading journal entry: entry 13 is skipped,
invoice 11 fails (company B has no purchase journal), invoice 12 would
succeed.  Used to exercise an error in the middle of a batch. -/
def envBatchEntry : Env :=
  { envBatch with moves := moveEntry13 :: envBatch.moves }

/-- A posted source whose draft mirror's untaxed total has diverged from
its own (the total-mismatch world the builder itself leaves behind as a
draft with a warning). -/
def srcDiverge16 : AccountMove :=
  { srcInv with id := 16, name := "INV-A-16", state := "posted" }

/-- The divergent draft mirror of `srcDiverge16`: untaxed 190 against the
source's 200. -/
def divergeMirror26 : AccountMove :=
  { id := 26, name := "MIR-B-26", move_type := "in_invoice", company_id := 2
  , partner_id := 101, commercial_partner_id := 101, state := "draft"
  , auto_generated := true, auto_invoice_id := some 16
  , amount_total := 190, amount_untaxed := 190, currency_rounding := 1 / 100
  , invoice_origin := "A - Invoice: INV-A-16", invoice_line_ids := [lineProd]
  , messages := [] }

/-- World for the cascade-abort counterexample. -/
def envCancelDiverge : Env :=
  { companies := [companyA, companyB], partners := [partnerA, partnerB]
  , journals := [journalPurchaseB]
  , moves := [srcDiverge16, divergeMirror26], nextId := 30, precision := 2 }

/-- The canonical source, in posted state. -/
def srcPosted : AccountMove := { srcInv with state := "posted" }

/-- World for the cascade-cancel claim: a posted source with its posted
mirror. -/
def envCancel : Env :=
  { companies := [companyA, companyB], partners := [partnerA, partnerB]
  , journals := [journalPurchaseB]
  , moves := [srcPosted, postedMirror20]
  , nextId := 30, precision := 2 }

/-- Observation helper: the state and messages of the last move of a
successful result (the freshly appended mirror), `none` on error. -/
def resultMirrorView (r : Except Err Env) : Option (String × List ChatMessage) :=
  match r with
  | .ok e => (e.moves.getLast?).map (fun m => (m.state, m.messages))
  | .error _ => none

/-- The mirror `buildMirror` appends on the success path: the created
record (with all non-display source lines cloned) after reconciliation. -/
def builtMirror (t : ℚ × ℚ) (env : Env) (src : AccountMove) (dest : Company)
    (f : Option String) : AccountMove :=
  reconcileMirror env src dest (createdMirror t env src dest f
    ((src.invoice_line_ids.filter (fun l => l.display_type.isNone)).map
      _prepare_account_move_line))

/-- The environment `buildMirror` returns on the success path. -/
def builtEnv (t : ℚ × ℚ) (env : Env) (src : AccountMove) (dest : Company)
    (f : Option String) : Env :=
  { env with
      moves := env.moves ++ [builtMirror t env src dest f]
    , nextId := env.nextId + 1 }

/-- The net effect of the cancellation cascade on one mirror id: state
forced through draft to cancel, origin note rewritten. -/
def cancelStepUpd (mid : Nat) (note : String) (m : AccountMove) : AccountMove :=
  if m.id = mid then { m with state := "cancel", invoice_origin := note } else m

/-- The net effect of the whole `button_cancel` of a source on one move:
the source itself is cancelled, every mirror referencing it is cancelled
with its origin note rewritten to the cancellation note, everything else
is untouched. -/
def cancelCascadeUpd (env : Env) (src : AccountMove) (m : AccountMove) : AccountMove :=
  if m.id = src.id then { m with state := "cancel" }
  else if m.auto_invoice_id = some src.id then
    { m with
        state := "cancel"
      , invoice_origin := mkCanceledOrigin (companyName env src.company_id) src.name }
  else m

/-! ### Helper lemmas -/

theorem findJournal_removeMove (env : Env) (i : Nat) (jt : String) (cid : Nat) :
    findJournal (removeMoveById env i) jt cid = findJournal env jt cid := rfl

theorem check_product_share (vis : Nat → Nat → Bool) (src : AccountMove)
    (dest : Company) (h : dest.company_share_product = true) :
    _check_intercompany_product vis src dest = .ok () := by
  simp [_check_intercompany_product, h]

theorem prepareLines_ok (ls : List InvoiceLine) (h : ∀ l ∈ ls, l.product_id ≠ none) :
    prepareLines ls = .ok (ls.map _prepare_account_move_line) := by
  induction ls with
  | nil => rfl
  | cons l ls ih =>
    cases hp : l.product_id with
    | none => exact absurd hp (h l (by simp))
    | some p =>
      have := ih (fun x hx => h x (by simp [hx]))
      simp [prepareLines, hp, this]

theorem prepareLines_err (ls : List InvoiceLine)
    (h : ∃ l ∈ ls, l.product_id = none) :
    ∃ nm, prepareLines ls = .error (.lineWithoutProduct nm) ∧
      ∃ l ∈ ls, l.product_id = none ∧ l.name = nm := by
  induction ls with
  | nil => simp at h
  | cons l ls ih =>
    cases hp : l.product_id with
    | none =>
      refine ⟨l.name, by simp [prepareLines, hp], l, by simp, hp, rfl⟩
    | some p =>
      have h' : ∃ x ∈ ls, x.product_id = none := by
        rcases h with ⟨x, hx, hxn⟩
        rcases List.mem_cons.mp hx with rfl | hx'
        · rw [hp] at hxn; cases hxn
        · exact ⟨x, hx', hxn⟩
      obtain ⟨nm, heq, x, hx, hxn, hxm⟩ := ih h'
      exact ⟨nm, by simp [prepareLines, hp, heq], x, by simp [hx], hxn, hxm⟩

theorem prepareLines_ne_singleton (ls : List InvoiceLine) :
    prepareLines ls ≠ .error .expectedSingleton := by
  induction ls with
  | nil => simp [prepareLines]
  | cons l ls ih =>
    cases hp : l.product_id with
    | none => simp [prepareLines, hp]
    | some p =>
      cases hr : prepareLines ls with
      | error e =>
        simp [prepareLines, hp, hr]
        rw [hr] at ih
        intro hc
        exact ih (by rw [hc])
      | ok rest => simp [prepareLines, hp, hr]

theorem buildMirror_ne_singleton (t : ℚ × ℚ) (env : Env) (src : AccountMove)
    (dest : Company) (f : Option String) :
    buildMirror t env src dest f ≠ .error .expectedSingleton := by
  cases hj : findJournal env ((_get_destination_journal_type src.move_type).getD "") dest.id with
  | none => simp [buildMirror, _prepare_invoice_data, hj]
  | some j =>
    cases hr : prepareLines (src.invoice_line_ids.filter (fun l => l.display_type.isNone)) with
    | error e =>
      simp [buildMirror, _prepare_invoice_data, hj, hr]
      intro hc
      exact prepareLines_ne_singleton _ (by rw [hr, hc])
    | ok ds => simp [buildMirror, _prepare_invoice_data, hj, hr]

/-- Under a found journal and complete lines, `buildMirror` appends
exactly the reconciled created mirror. -/
theorem buildMirror_eq (t : ℚ × ℚ) (env : Env) (src : AccountMove)
    (dest : Company) (f : Option String) (j : Journal)
    (hj : findJournal env ((_get_destination_journal_type src.move_type).getD "") dest.id
            = some j)
    (hl : ∀ l ∈ src.invoice_line_ids.filter (fun l => l.display_type.isNone),
            l.product_id ≠ none) :
    buildMirror t env src dest f = .ok (builtEnv t env src dest f) := by
  simp [buildMirror, _prepare_invoice_data, hj, prepareLines_ok _ hl, builtEnv, builtMirror]

theorem reconcileMirror_name (env : Env) (src : AccountMove) (dest : Company)
    (d : AccountMove) : (reconcileMirror env src dest d).name = d.name := by
  simp only [reconcileMirror]
  split
  · rfl
  · split <;> rfl

theorem reconcileMirror_auto_invoice_id (env : Env) (src : AccountMove)
    (dest : Company) (d : AccountMove) :
    (reconcileMirror env src dest d).auto_invoice_id = d.auto_invoice_id := by
  simp only [reconcileMirror]
  split
  · rfl
  · split <;> rfl

theorem reconcileMirror_state (env : Env) (src : AccountMove) (dest : Company)
    (d : AccountMove) :
    (reconcileMirror env src dest d).state =
      if dest.invoice_auto_validation = true ∧
          float_compareD src.amount_total d.amount_total env.precision = 0
      then "posted" else d.state := by
  simp only [reconcileMirror]
  split
  · rfl
  · split <;> rfl

theorem reconcileMirror_messages (env : Env) (src : AccountMove) (dest : Company)
    (d : AccountMove) :
    (reconcileMirror env src dest d).messages =
      if float_compareD src.amount_total d.amount_total env.precision ≠ 0 then
        d.messages ++
          [{ dest_amount_total := d.amount_total
           , invoice_name := src.name
           , company_name := companyName env src.company_id
           , amount_total := src.amount_total }]
      else d.messages := by
  simp only [reconcileMirror]
  split
  · rename_i h
    rw [if_neg (by simp [h.2])]
  · split <;> rfl

theorem createdMirror_amount_total (t : ℚ × ℚ) (env : Env) (src : AccountMove)
    (dest : Company) (f : Option String) (ls : List InvoiceLine) :
    (createdMirror t env src dest f ls).amount_total = t.1 := rfl

theorem createdMirror_state (t : ℚ × ℚ) (env : Env) (src : AccountMove)
    (dest : Company) (f : Option String) (ls : List InvoiceLine) :
    (createdMirror t env src dest f ls).state = "draft" := rfl

theorem createdMirror_messages (t : ℚ × ℚ) (env : Env) (src : AccountMove)
    (dest : Company) (f : Option String) (ls : List InvoiceLine) :
    (createdMirror t env src dest f ls).messages = [] := rfl

theorem createdMirror_name (t : ℚ × ℚ) (env : Env) (src : AccountMove)
    (dest : Company) (f : Option String) (ls : List InvoiceLine) :
    (createdMirror t env src dest f ls).name = f.getD (freshName env.nextId) := rfl

theorem createdMirror_auto_invoice_id (t : ℚ × ℚ) (env : Env) (src : AccountMove)
    (dest : Company) (f : Option String) (ls : List InvoiceLine) :
    (createdMirror t env src dest f ls).auto_invoice_id = some src.id := rfl

/-- `List.find?` by id commutes with an id-preserving map. -/
theorem find?_id_map (f : AccountMove → AccountMove)
    (hf : ∀ m, (f m).id = m.id) (l : List AccountMove) (i : Nat) :
    (l.map f).find? (fun m => m.id == i) = (l.find? (fun m => m.id == i)).map f := by
  induction l with
  | nil => rfl
  | cons a l ih =>
    simp only [List.map_cons, List.find?]
    rw [hf a]
    cases h : (a.id == i)
    · exact ih
    · rfl

theorem findMove_superActionPost (env : Env) (ids : List Nat) (i : Nat) :
    findMove (superActionPost env ids) i =
      (findMove env i).map
        (fun m => if m.id ∈ ids then { m with state := "posted" } else m) := by
  unfold findMove superActionPost
  exact find?_id_map _ (fun m => by split <;> rfl) env.moves i

theorem findMove_superButtonDraft (env : Env) (ids : List Nat) (i : Nat) :
    findMove (superButtonDraft env ids) i =
      (findMove env i).map
        (fun m => if m.id ∈ ids then { m with state := "draft" } else m) := by
  unfold findMove superButtonDraft
  exact find?_id_map _ (fun m => by split <;> rfl) env.moves i

theorem findMove_applyWrite (env : Env) (ids : List Nat)
    (upd : AccountMove → AccountMove) (hupd : ∀ m, (upd m).id = m.id) (i : Nat) :
    findMove (applyWrite env ids upd) i =
      (findMove env i).map (fun m => if m.id ∈ ids then upd m else m) := by
  unfold findMove applyWrite
  refine find?_id_map _ (fun m => ?_) env.moves i
  by_cases h : m.id ∈ ids
  · simp [h, hupd]
  · simp [h]

theorem findMove_mapped (env : Env) (f : AccountMove → AccountMove)
    (hf : ∀ m, (f m).id = m.id) (i : Nat) :
    findMove { env with moves := env.moves.map f } i = (findMove env i).map f := by
  unfold findMove
  exact find?_id_map f hf env.moves i

/-- The posting loop over a concatenated batch runs the first part, and,
only when it survives, continues with the second from the reached state. -/
theorem action_post_loop_append (vis : Nat → Nat → Bool) (totalsOf : Nat → ℚ × ℚ)
    (l1 l2 : List Nat) : ∀ env : Env,
    action_post_loop vis totalsOf env (l1 ++ l2) =
      match action_post_loop vis totalsOf env l1 with
      | .error e => .error e
      | .ok env' => action_post_loop vis totalsOf env' l2 := by
  induction l1 with
  | nil => intro env; rfl
  | cons a l ih =>
    intro env
    simp only [List.cons_append, action_post_loop]
    cases h : action_post_one vis totalsOf env a with
    | error e => rfl
    | ok env' => exact ih env'

theorem find_company_congr (env env' : Env) (m m' : AccountMove)
    (hc : env'.companies = env.companies)
    (hp : m'.commercial_partner_id = m.commercial_partner_id) :
    _find_company_from_invoice_partner env' m' =
      _find_company_from_invoice_partner env m := by
  unfold _find_company_from_invoice_partner
  rw [hc, hp]

/-- The draft-note-cancel chain applied to one mirror id collapses to the
single per-move update `cancelStepUpd`. -/
theorem three_ops_eq (e : Env) (mid : Nat) (note : String) :
    superButtonCancel
      (applyWrite (superButtonDraft e [mid]) [mid] (setCanceledOrigin note)) [mid] =
    { e with moves := e.moves.map (cancelStepUpd mid note) } := by
  simp only [superButtonCancel, applyWrite, superButtonDraft, List.map_map]
  congr 1
  refine congrFun (congrArg List.map ?_) e.moves
  funext mm
  by_cases h : mm.id = mid
  · simp [h, cancelStepUpd, setCanceledOrigin]
  · simp [h, cancelStepUpd, setCanceledOrigin]

/-- `button_cancel` on a single `auto_generated` move reduces to the core
engine's cancellation: the intercompany loop short-circuits. -/
theorem button_cancel_auto (fuel : Nat) (hfuel : 3 ≤ fuel) (e : Env) (mid : Nat)
    (hag : ∀ mm ∈ e.moves, mm.id = mid → mm.auto_generated = true) :
    button_cancel fuel e [mid] = .ok (superButtonCancel e [mid]) := by
  obtain ⟨a, rfl⟩ : ∃ a, fuel = a + 1 + 1 + 1 := ⟨fuel - 3, by omega⟩
  cases hf : findMove e mid with
  | none => simp [button_cancel, cancelPropagateAll, cancelPropagateOne, hf]
  | some mm =>
    have hmm : mm ∈ e.moves := List.mem_of_find?_eq_some hf
    have hid : mm.id = mid := by
      have h := List.find?_some hf
      simpa using h
    have hg : mm.auto_generated = true := hag mm hmm hid
    cases hr : _find_company_from_invoice_partner e mm with
    | none => simp [button_cancel, cancelPropagateAll, cancelPropagateOne, hf, hr]
    | some c => simp [button_cancel, cancelPropagateAll, cancelPropagateOne, hf, hr, hg]

/-- Characterization of the inner cancellation loop of `button_cancel`:
under its invariants — no posted move references any processed mirror id,
every move carrying a processed id is an auto-generated mirror of the
source whose untaxed total matches the source's at its own rounding, the
source resolves and carries none of the processed ids — the loop
succeeds and cancels-and-annotates exactly the moves whose id is in the
processed list. -/
theorem cancelMirrorsLoop_ok (mids : List Nat) :
    ∀ (fuel : Nat) (e : Env) (inv s0 : AccountMove),
    mids.length + 3 ≤ fuel →
    findMove e inv.id = some s0 →
    (∀ mid ∈ mids, ∀ x ∈ e.moves, x.auto_invoice_id = some mid → x.state ≠ "posted") →
    (∀ mid ∈ mids, ∀ mm ∈ e.moves, mm.id = mid →
      mm.auto_generated = true ∧ mm.auto_invoice_id = some inv.id ∧
      float_compareR mm.amount_untaxed s0.amount_untaxed mm.currency_rounding = 0) →
    (∀ mid ∈ mids, mid ≠ inv.id) →
    cancelMirrorsLoop fuel e inv mids =
      .ok { e with moves := e.moves.map (fun mm =>
        if mm.id ∈ mids then
          { mm with
              state := "cancel"
            , invoice_origin := mkCanceledOrigin (companyName e inv.company_id) inv.name }
        else mm) } := by
  induction mids with
  | nil =>
    intro fuel e inv s0 hfuel hs hnp hmir hne
    obtain ⟨a, rfl⟩ : ∃ a, fuel = a + 1 := ⟨fuel - 1, by omega⟩
    simp [cancelMirrorsLoop]
  | cons mid rest ih =>
    intro fuel e inv s0 hfuel hs hnp hmir hne
    obtain ⟨f, rfl⟩ : ∃ f, fuel = f + 1 := ⟨fuel - 1, by omega⟩
    have hsid : s0.id = inv.id := by
      have h := List.find?_some hs
      simpa using h
    have hmidne : mid ≠ inv.id := hne mid (List.mem_cons_self _ _)
    have hs0ne : ¬ s0.id = mid := by
      rw [hsid]
      exact fun hh => hmidne hh.symm
    -- Step A: button_draft on the mirror passes its guard.
    have hchk : e.moves.find?
        (fun m => m.auto_invoice_id == some mid && m.state == "posted") = none := by
      rw [List.find?_eq_none]
      intro x hx
      simp only [Bool.and_eq_true, beq_iff_eq, not_and]
      intro h1
      exact hnp mid (List.mem_cons_self _ _) x hx h1
    have hA : button_draft e [mid] = .ok (superButtonDraft e [mid]) := by
      simp [button_draft, buttonDraftCheck, hchk]
    have hcn1 : companyName (superButtonDraft e [mid]) inv.company_id
        = companyName e inv.company_id := rfl
    -- Step B: the origin write passes the amount check.
    have hB : write (superButtonDraft e [mid]) [mid]
        (setCanceledOrigin (mkCanceledOrigin (companyName e inv.company_id) inv.name))
        false
        = .ok (applyWrite (superButtonDraft e [mid]) [mid]
            (setCanceledOrigin (mkCanceledOrigin (companyName e inv.company_id) inv.name))) := by
      have hcheck : writeCheckAll
          (applyWrite (superButtonDraft e [mid]) [mid]
            (setCanceledOrigin (mkCanceledOrigin (companyName e inv.company_id) inv.name)))
          [mid] = .ok () := by
        cases hf2 : findMove
            (applyWrite (superButtonDraft e [mid]) [mid]
              (setCanceledOrigin (mkCanceledOrigin (companyName e inv.company_id) inv.name)))
            mid with
        | none => simp [writeCheckAll, hf2]
        | some mm2 =>
          have hmem2 := List.mem_of_find?_eq_some hf2
          have hid2 : mm2.id = mid := by
            have h := List.find?_some hf2
            simpa using h
          obtain ⟨mm1, hm1, hmm1⟩ := List.mem_map.mp (by simpa [applyWrite] using hmem2)
          obtain ⟨mm0, hm0, hmm0⟩ := List.mem_map.mp (by
            simpa [superButtonDraft] using hm1)
          subst hmm1
          subst hmm0
          by_cases h : mm0.id = mid
          · obtain ⟨hg0, hai0, hcmp0⟩ := hmir mid (List.mem_cons_self _ _) mm0 hm0 h
            have hsrc2 : findMove
                (applyWrite (superButtonDraft e [mid]) [mid]
                  (setCanceledOrigin (mkCanceledOrigin (companyName e inv.company_id) inv.name)))
                inv.id = some s0 := by
              rw [findMove_applyWrite _ _
                  (setCanceledOrigin (mkCanceledOrigin (companyName e inv.company_id) inv.name))
                  (fun m => rfl),
                findMove_superButtonDraft, hs]
              simp [hs0ne]
            simp [writeCheckAll, hf2, writeCheckOne, h, setCanceledOrigin, hai0, hsrc2, hcmp0]
          · simp [h, setCanceledOrigin] at hid2
      simp [write, hcheck]
    -- Step C: button_cancel on the auto-generated mirror is a plain cancel.
    have hC : button_cancel f
        (applyWrite (superButtonDraft e [mid]) [mid]
          (setCanceledOrigin (mkCanceledOrigin (companyName e inv.company_id) inv.name)))
        [mid]
        = .ok (superButtonCancel
            (applyWrite (superButtonDraft e [mid]) [mid]
              (setCanceledOrigin (mkCanceledOrigin (companyName e inv.company_id) inv.name)))
            [mid]) := by
      apply button_cancel_auto f (by simp only [List.length_cons] at hfuel; omega)
      intro mm2 hmem2 hid2
      obtain ⟨mm1, hm1, hmm1⟩ := List.mem_map.mp (by simpa [applyWrite] using hmem2)
      obtain ⟨mm0, hm0, hmm0⟩ := List.mem_map.mp (by simpa [superButtonDraft] using hm1)
      subst hmm1
      subst hmm0
      by_cases h : mm0.id = mid
      · obtain ⟨hg0, _, _⟩ := hmir mid (List.mem_cons_self _ _) mm0 hm0 h
        simp [h, setCanceledOrigin, hg0]
      · simp [h, setCanceledOrigin] at hid2
    -- Assemble the three steps and recurse.
    simp only [cancelMirrorsLoop, hA, hcn1, hB, hC, three_ops_eq]
    -- Invariants for the tail, on the once-updated world.
    have hupd_id : ∀ m : AccountMove,
        (cancelStepUpd mid (mkCanceledOrigin (companyName e inv.company_id) inv.name) m).id
          = m.id := by
      intro m
      unfold cancelStepUpd
      split <;> rfl
    have hs' : findMove { e with moves := e.moves.map (cancelStepUpd mid (mkCanceledOrigin (companyName e inv.company_id) inv.name)) } inv.id = some s0 := by
      rw [findMove_mapped _ _ hupd_id, hs]
      simp [cancelStepUpd, hs0ne]
    have hnp' : ∀ mid' ∈ rest, ∀ x ∈ ({ e with moves := e.moves.map (cancelStepUpd mid (mkCanceledOrigin (companyName e inv.company_id) inv.name)) } : Env).moves,
        x.auto_invoice_id = some mid' → x.state ≠ "posted" := by
      intro mid' hmid' x hx h1
      obtain ⟨m0, hm0, rfl⟩ := List.mem_map.mp hx
      by_cases h : m0.id = mid
      · simp [cancelStepUpd, h]
      · simp only [cancelStepUpd, if_neg h] at h1 ⊢
        exact hnp mid' (List.mem_cons_of_mem _ hmid') m0 hm0 h1
    have hmir' : ∀ mid' ∈ rest, ∀ mm ∈ ({ e with moves := e.moves.map (cancelStepUpd mid (mkCanceledOrigin (companyName e inv.company_id) inv.name)) } : Env).moves,
        mm.id = mid' →
        mm.auto_generated = true ∧ mm.auto_invoice_id = some inv.id ∧
        float_compareR mm.amount_untaxed s0.amount_untaxed mm.currency_rounding = 0 := by
      intro mid' hmid' mm hmm hid'
      obtain ⟨m0, hm0, rfl⟩ := List.mem_map.mp hmm
      have hid0 : m0.id = mid' := by rw [← hid']; exact (hupd_id m0).symm
      have h0 := hmir mid' (List.mem_cons_of_mem _ hmid') m0 hm0 hid0
      unfold cancelStepUpd
      split <;> simpa using h0
    have hne' : ∀ mid' ∈ rest, mid' ≠ inv.id :=
      fun mid' hmid' => hne mid' (List.mem_cons_of_mem _ hmid')
    rw [ih f _ inv s0 (by simp at hfuel ⊢; omega) hs' hnp' hmir' hne']
    have hcn2 : companyName { e with moves := e.moves.map (cancelStepUpd mid (mkCanceledOrigin (companyName e inv.company_id) inv.name)) } inv.company_id = companyName e inv.company_id := rfl
    rw [hcn2]
    -- Collapse the two maps into the single membership test.
    congr 2
    rw [List.map_map]
    refine congrFun (congrArg List.map ?_) e.moves
    funext mm
    by_cases h1 : mm.id = mid
    · by_cases h2 : mm.id ∈ rest <;>
        simp [cancelStepUpd, h1, h2, List.mem_cons]
    · by_cases h2 : mm.id ∈ rest <;>
        simp [cancelStepUpd, h1, h2, List.mem_cons]

/-! ### The claims -/

/-- C4: the destination move-type mapping restricted to the four supported
move types is an involution (hence a bijection), and maps nothing outside
them: for a supported type the mapped type is again supported and maps
back to the original; for any other string the mapping is `none`. -/
theorem C4_destination_type_involution (t : String) :
    (t ∈ supportedTypes →
      ∃ u, _get_destination_invoice_type t = some u ∧ u ∈ supportedTypes ∧
        _get_destination_invoice_type u = some t) ∧
    (t ∉ supportedTypes → _get_destination_invoice_type t = none) := by
  constructor
  · intro h
    simp only [supportedTypes, List.mem_cons, List.mem_singleton] at h
    rcases h with rfl | rfl | rfl | rfl | h
    · exact ⟨"in_invoice", rfl, by simp [supportedTypes], rfl⟩
    · exact ⟨"out_invoice", rfl, by simp [supportedTypes], rfl⟩
    · exact ⟨"in_refund", rfl, by simp [supportedTypes], rfl⟩
    · exact ⟨"out_refund", rfl, by simp [supportedTypes], rfl⟩
    · simp at h
  · intro h
    simp only [supportedTypes, List.mem_cons, List.mem_singleton] at h
    push_neg at h
    obtain ⟨h1, h2, h3, h4, _⟩ := h
    simp [_get_destination_invoice_type, h1, h2, h3, h4]

/-- Witness for C4 at the concrete type `"out_invoice"`. -/
theorem C4_destination_type_involution_witness :
    ∃ u, _get_destination_invoice_type "out_invoice" = some u ∧
      u ∈ supportedTypes ∧ _get_destination_invoice_type u = some "out_invoice" :=
  (C4_destination_type_involution "out_invoice").1 (by simp [supportedTypes])

/-- C9: when at least one posted mirror references a document,
`button_draft` on that document is rejected with the error naming the
first such mirror and its partner; the error aborts the transaction, so
the document is not reset to draft. -/
theorem C9_reset_guard (env : Env) (i : Nat)
    (h : ∃ m ∈ env.moves, m.auto_invoice_id = some i ∧ m.state = "posted") :
    ∃ p, env.moves.find?
        (fun m => m.auto_invoice_id == some i && m.state == "posted") = some p ∧
      p.auto_invoice_id = some i ∧ p.state = "posted" ∧
      button_draft env [i] =
        .error (.postedMirrorExists p.name (partnerDisplayName env p.partner_id)) := by
  have hs : (env.moves.find?
      (fun m => m.auto_invoice_id == some i && m.state == "posted")).isSome = true := by
    rw [List.find?_isSome]
    rcases h with ⟨m, hm, h1, h2⟩
    exact ⟨m, hm, by simp [h1, h2]⟩
  obtain ⟨p, hp⟩ := Option.isSome_iff_exists.mp hs
  have hprops := List.find?_some hp
  simp only [Bool.and_eq_true, beq_iff_eq] at hprops
  refine ⟨p, hp, hprops.1, hprops.2, ?_⟩
  simp [button_draft, buttonDraftCheck, hp]

/-- Witness for C9: the world `envPosted`, where the posted mirror 20
references invoice 10. -/
theorem C9_reset_guard_witness :
    ∃ p, envPosted.moves.find?
        (fun m => m.auto_invoice_id == some 10 && m.state == "posted") = some p ∧
      p.auto_invoice_id = some 10 ∧ p.state = "posted" ∧
      button_draft envPosted [10] =
        .error (.postedMirrorExists p.name (partnerDisplayName envPosted p.partner_id)) :=
  C9_reset_guard envPosted 10 ⟨postedMirror20, by simp [envPosted], rfl, rfl⟩

/-- C10: when product data is shared (so the visibility check passes),
the mirror builder fails with the singleton violation exactly when two or
more pre-existing mirrors match (source, destination company); with at
most one it never does.  The error occurs at the state read, before any
deletion: an error result leaves the transaction rolled back, deleting
and rebuilding nothing. -/
theorem C10_reclaim_singleton (vis : Nat → Nat → Bool) (t : ℚ × ℚ)
    (env : Env) (src : AccountMove) (dest : Company)
    (h : dest.company_share_product = true) :
    _inter_company_create_invoice vis t env src dest = .error .expectedSingleton ↔
      2 ≤ (mirrorsFor env src.id dest.id).length := by
  unfold _inter_company_create_invoice
  rw [check_product_share vis src dest h]
  cases hm : mirrorsFor env src.id dest.id with
  | nil =>
    simp only [List.length_nil]
    constructor
    · intro hc; exact absurd hc (buildMirror_ne_singleton t env src dest none)
    · omega
  | cons m0 rest =>
    cases rest with
    | nil =>
      simp only [List.length_singleton]
      constructor
      · intro hc
        by_cases hs : (m0.state == "draft" || m0.state == "cancel") = true
        · rw [if_pos hs] at hc
          exact absurd hc (buildMirror_ne_singleton t _ src dest (some m0.name))
        · rw [if_neg hs] at hc
          exact absurd hc (buildMirror_ne_singleton t env src dest none)
      · omega
    | cons m1 rest' =>
      simp only [List.length_cons]
      constructor
      · intro _; omega
      · intro _; trivial

/-- Witness for C10: the world `envTwoMirrors`, whose two draft mirrors
for (invoice 10, company B) make the builder fail with the singleton
violation. -/
theorem C10_reclaim_singleton_witness :
    _inter_company_create_invoice visAll ((200 : ℚ), (200 : ℚ))
        envTwoMirrors srcInv companyB = .error .expectedSingleton :=
  (C10_reclaim_singleton visAll (200, 200) envTwoMirrors srcInv companyB rfl).mpr
    (by norm_num [mirrorsFor, envTwoMirrors, srcInv, draftMirror22, companyB])

/-- C2 counterexample to the claim as stated: in the batch [11, 12],
invoice 11's mirroring fails (company B has no purchase journal) and the
raised error aborts the whole `action_post` — there is no resulting state
at all, so invoice 12 is not mirrored — although invoice 12 alone would
have been processed successfully.  Sibling documents are NOT independent. -/
theorem C2_counterexample :
    action_post visAll totals200 envBatch [11, 12] =
      .error (.journalNotFound "purchase" "B") ∧
    (action_post visAll totals200 envBatch [12]).isOk = true :=
  ⟨rfl, rfl⟩

/-- C2 (amended): a mirroring failure raised while processing any one
document of a batch propagates out of `action_post` (the loop of lines
43-67 has no exception handler): whatever position the failing document
occupies, once the documents before it have been processed and it raises,
the whole batch request returns that error — the documents after it are
never attempted, and the work of the documents before it (carried by the
intermediate state `env'`) is discarded with the failed transaction. -/
theorem C2_batch_error_propagates (vis : Nat → Nat → Bool)
    (totalsOf : Nat → ℚ × ℚ) (env : Env) (pre : List Nat) (a : Nat)
    (post : List Nat) (e : Err) (env' : Env)
    (hpre : action_post_loop vis totalsOf (superActionPost env (pre ++ a :: post)) pre
      = .ok env')
    (ha : action_post_one vis totalsOf env' a = .error e) :
    action_post vis totalsOf env (pre ++ a :: post) = .error e := by
  unfold action_post
  rw [action_post_loop_append, hpre]
  simp [action_post_loop, ha]

/-- Witness for C2: in the batch [13, 11, 12] the failure strikes at the
second position — entry 13 is processed (skipped as unsupported) first,
invoice 11 then raises, and invoice 12 is never attempted. -/
theorem C2_batch_error_propagates_witness :
    action_post visAll totals200 envBatchEntry ([13] ++ 11 :: [12]) =
      .error (.journalNotFound "purchase" "B") :=
  C2_batch_error_propagates visAll totals200 envBatchEntry [13] 11 [12]
    (.journalNotFound "purchase" "B")
    (superActionPost envBatchEntry ([13] ++ 11 :: [12])) (by rfl) (by rfl)

/-- C6 counterexample to the claim as stated: mirror 21's untaxed total
(100) differs from its source's (100.4) at the source's cent rounding,
yet an (amount-preserving) write on the mirror succeeds: the code
compares at the edited mirror's own whole-unit rounding (line 290,
`move.currency_id.rounding`), not at the source's. -/
theorem C6_counterexample :
    write envRounding [21] (fun m => m) false =
      .ok (applyWrite envRounding [21] (fun m => m)) ∧
    float_compareR mirrorCoarse.amount_untaxed srcFine.amount_untaxed
      srcFine.currency_rounding ≠ 0 ∧
    mirrorCoarse.auto_invoice_id = some srcFine.id ∧
    mirrorCoarse ∈ envRounding.moves := by
  have hm : findMove (applyWrite envRounding [21] (fun m => m)) 21 = some mirrorCoarse := by
    rfl
  have hs : findMove (applyWrite envRounding [21] (fun m => m)) 15 = some srcFine := by
    rfl
  have h0 : float_compareR mirrorCoarse.amount_untaxed srcFine.amount_untaxed
      mirrorCoarse.currency_rounding = 0 := by
    norm_num [float_compareR, float_round, round_eq, mirrorCoarse, srcFine, srcInv]
  refine ⟨?_, ?_, rfl, by simp [envRounding]⟩
  · simp [write, writeCheckAll, writeCheckOne, hm, hs, h0,
      show mirrorCoarse.auto_invoice_id = some 15 from rfl]
  · norm_num [float_compareR, float_round, round_eq, mirrorCoarse, srcFine, srcInv]

/-- C6 (amended): a write on a mirror with the context flag set is always
accepted; without it, the write is rejected with an error naming the
source iff the mirror's post-write `amount_untaxed` differs from the
source's at the *mirror's own* currency rounding. -/
theorem C6_edit_lock (env : Env) (i : Nat) (upd : AccountMove → AccountMove)
    (m src : AccountMove) (sid : Nat)
    (hm : findMove (applyWrite env [i] upd) i = some m)
    (ha : m.auto_invoice_id = some sid)
    (hs : findMove (applyWrite env [i] upd) sid = some src) :
    write env [i] upd true = .ok (applyWrite env [i] upd) ∧
    (float_compareR m.amount_untaxed src.amount_untaxed m.currency_rounding = 0 →
      write env [i] upd false = .ok (applyWrite env [i] upd)) ∧
    (float_compareR m.amount_untaxed src.amount_untaxed m.currency_rounding ≠ 0 →
      write env [i] upd false = .error (.amountDivergesFromSource src.name)) := by
  refine ⟨rfl, ?_, ?_⟩
  · intro h0
    simp [write, writeCheckAll, hm, writeCheckOne, ha, hs, h0]
  · intro h0
    simp [write, writeCheckAll, hm, writeCheckOne, ha, hs, h0]

/-- Witness for C6: an amount-preserving write on posted mirror 20, whose
untaxed total agrees with its source's, is accepted. -/
theorem C6_edit_lock_witness :
    write envPosted [20] (fun m => m) false =
      .ok (applyWrite envPosted [20] (fun m => m)) :=
  (C6_edit_lock envPosted 20 (fun m => m) postedMirror20 srcInv 10
    (by rfl) rfl (by rfl)).2.1
    (by norm_num [float_compareR, float_round, round_eq, postedMirror20, srcInv])

/-- Auxiliary for C5: a found journal and a failing line loop make
`buildMirror` fail with the line error. -/
theorem buildMirror_err_lines (t : ℚ × ℚ) (env : Env) (src : AccountMove)
    (dest : Company) (f : Option String) (er : Err) (j : Journal)
    (hj : findJournal env ((_get_destination_journal_type src.move_type).getD "") dest.id
            = some j)
    (hr : prepareLines (src.invoice_line_ids.filter (fun l => l.display_type.isNone))
            = .error er) :
    buildMirror t env src dest f = .error er := by
  simp [buildMirror, _prepare_invoice_data, hj, hr]

/-- C5: when the earlier steps pass (visible products, at most one stale
mirror, journal configured) and some non-section/note line of the source
has no product, the builder raises the descriptive line error, naming a
product-less line of the source; the error result means the transaction
is rolled back: no mirror line is created (the batch line-create of line
132 is never reached) and no partial mirror document persists. -/
theorem C5_line_guard (vis : Nat → Nat → Bool) (t : ℚ × ℚ) (env : Env)
    (src : AccountMove) (dest : Company) (j : Journal)
    (hshare : dest.company_share_product = true)
    (hstale : mirrorsFor env src.id dest.id = [] ∨
      ∃ m0, mirrorsFor env src.id dest.id = [m0])
    (hj : findJournal env ((_get_destination_journal_type src.move_type).getD "") dest.id
            = some j)
    (hbad : ∃ l ∈ src.invoice_line_ids, l.display_type = none ∧ l.product_id = none) :
    ∃ nm, _inter_company_create_invoice vis t env src dest =
        .error (.lineWithoutProduct nm) ∧
      ∃ l ∈ src.invoice_line_ids, l.display_type = none ∧ l.product_id = none ∧
        l.name = nm := by
  have hbad' : ∃ l ∈ src.invoice_line_ids.filter (fun l => l.display_type.isNone),
      l.product_id = none := by
    rcases hbad with ⟨l, hl, hd, hp⟩
    exact ⟨l, List.mem_filter.mpr ⟨hl, by simp [hd]⟩, hp⟩
  obtain ⟨nm, heq, l, hlmem, hlp, hln⟩ := prepareLines_err _ hbad'
  have hlmem' := List.mem_filter.mp hlmem
  have hld : l.display_type = none := by
    have := hlmem'.2
    simpa [Option.isNone_iff_eq_none] using this
  refine ⟨nm, ?_, l, hlmem'.1, hld, hlp, hln⟩
  unfold _inter_company_create_invoice
  rw [check_product_share vis src dest hshare]
  rcases hstale with hst | ⟨m0, hst⟩
  · rw [hst]
    show buildMirror t env src dest none = .error (.lineWithoutProduct nm)
    exact buildMirror_err_lines t env src dest none _ j hj heq
  · rw [hst]
    show (if (m0.state == "draft" || m0.state == "cancel") = true
        then buildMirror t (removeMoveById env m0.id) src dest (some m0.name)
        else buildMirror t env src dest none) = .error (.lineWithoutProduct nm)
    by_cases hsc : (m0.state == "draft" || m0.state == "cancel") = true
    · rw [if_pos hsc]
      exact buildMirror_err_lines t (removeMoveById env m0.id) src dest (some m0.name) _ j
        hj heq
    · rw [if_neg hsc]
      exact buildMirror_err_lines t env src dest none _ j hj heq

/-- Witness for C5: the world `envNoProd`, whose source invoice 14 has a
single product-less line. -/
theorem C5_line_guard_witness :
    ∃ nm, _inter_company_create_invoice visAll (200, 200) envNoProd srcNoProd companyB =
        .error (.lineWithoutProduct nm) ∧
      ∃ l ∈ srcNoProd.invoice_line_ids, l.display_type = none ∧ l.product_id = none ∧
        l.name = nm :=
  C5_line_guard visAll (200, 200) envNoProd srcNoProd companyB journalPurchaseB
    rfl (Or.inl rfl) rfl ⟨lineNoProd, by simp [srcNoProd, srcInv], rfl, rfl⟩

/-- C3 counterexample to the claim as stated: destination company without
auto-validation and totals that agree at the configured precision — the
"otherwise" branch of the claim.  The build succeeds, the mirror stays in
draft, and NO warning note is appended (the claim predicts one). -/
theorem C3_counterexample :
    resultMirrorView (_inter_company_create_invoice visAll (200, 200)
        envNoAuto srcInv companyBNoAuto) = some ("draft", []) ∧
    companyBNoAuto.invoice_auto_validation = false ∧
    float_compareD srcInv.amount_total 200 envNoAuto.precision = 0 := by
  have hcmp : float_compareD srcInv.amount_total 200 envNoAuto.precision = 0 := by
    simp [float_compareD, float_compareR, srcInv]
  have hrun : _inter_company_create_invoice visAll (200, 200) envNoAuto srcInv companyBNoAuto
      = .ok (builtEnv (200, 200) envNoAuto srcInv companyBNoAuto none) := by
    unfold _inter_company_create_invoice
    rw [check_product_share visAll srcInv companyBNoAuto rfl,
      show mirrorsFor envNoAuto srcInv.id companyBNoAuto.id = [] from rfl]
    show buildMirror (200, 200) envNoAuto srcInv companyBNoAuto none = _
    exact buildMirror_eq (200, 200) envNoAuto srcInv companyBNoAuto none journalPurchaseB
      rfl (by simp [srcInv, lineProd])
  refine ⟨?_, rfl, hcmp⟩
  rw [hrun]
  simp only [resultMirrorView]
  rw [show (builtEnv (200, 200) envNoAuto srcInv companyBNoAuto none).moves =
      envNoAuto.moves ++ [builtMirror (200, 200) envNoAuto srcInv companyBNoAuto none]
    from rfl]
  rw [List.getLast?_concat]
  simp only [builtMirror, Option.map_some']
  rw [reconcileMirror_state, reconcileMirror_messages, createdMirror_amount_total,
    createdMirror_state, createdMirror_messages]
  simp [show companyBNoAuto.invoice_auto_validation = false from rfl, hcmp]

/-- C3 (amended): when the builder runs with no pre-existing mirror and
the earlier steps pass, it appends exactly one mirror; that mirror is
auto-posted iff the source's `amount_total` equals the computed mirror
total at the configured accounting precision AND the destination company
auto-validates; otherwise it remains in draft; and a warning note
carrying both totals and identifying the source document and company is
appended iff the totals differ at that precision (in particular, when
totals agree but auto-validation is off, the mirror is left in draft
with no note). -/
theorem C3_reconciliation (vis : Nat → Nat → Bool) (t : ℚ × ℚ) (env : Env)
    (src : AccountMove) (dest : Company) (j : Journal)
    (hshare : dest.company_share_product = true)
    (hstale : mirrorsFor env src.id dest.id = [])
    (hj : findJournal env ((_get_destination_journal_type src.move_type).getD "") dest.id
            = some j)
    (hl : ∀ l ∈ src.invoice_line_ids.filter (fun l => l.display_type.isNone),
            l.product_id ≠ none) :
    ∃ env' mir, _inter_company_create_invoice vis t env src dest = .ok env' ∧
      env'.moves = env.moves ++ [mir] ∧
      (mir.state = "posted" ↔
        dest.invoice_auto_validation = true ∧
        float_compareD src.amount_total t.1 env.precision = 0) ∧
      (mir.state ≠ "posted" → mir.state = "draft") ∧
      (mir.messages ≠ [] ↔ float_compareD src.amount_total t.1 env.precision ≠ 0) ∧
      (float_compareD src.amount_total t.1 env.precision ≠ 0 →
        mir.messages = [{ dest_amount_total := t.1, invoice_name := src.name
                        , company_name := companyName env src.company_id
                        , amount_total := src.amount_total }]) := by
  have hrun : _inter_company_create_invoice vis t env src dest =
      .ok (builtEnv t env src dest none) := by
    unfold _inter_company_create_invoice
    rw [check_product_share vis src dest hshare, hstale]
    show buildMirror t env src dest none = _
    exact buildMirror_eq t env src dest none j hj hl
  refine ⟨builtEnv t env src dest none, builtMirror t env src dest none,
    hrun, rfl, ?_, ?_, ?_, ?_⟩
  · simp only [builtMirror]
    rw [reconcileMirror_state, createdMirror_amount_total, createdMirror_state]
    by_cases hc : dest.invoice_auto_validation = true ∧
        float_compareD src.amount_total t.1 env.precision = 0
    · simp [hc]
    · simp [hc]
  · simp only [builtMirror]
    rw [reconcileMirror_state, createdMirror_amount_total, createdMirror_state]
    split
    · intro h; exact absurd rfl h
    · intro _; rfl
  · simp only [builtMirror]
    rw [reconcileMirror_messages, createdMirror_amount_total, createdMirror_messages]
    by_cases hc : float_compareD src.amount_total t.1 env.precision ≠ 0
    · simp [hc]
    · simp [hc]
  · intro hc
    simp only [builtMirror]
    rw [reconcileMirror_messages, createdMirror_amount_total, createdMirror_messages,
      if_pos hc]
    simp

/-- Witness for C3: the fresh world, destination B auto-validating and
totals agreeing: the appended mirror is posted, with no note. -/
theorem C3_reconciliation_witness :
    ∃ env' mir, _inter_company_create_invoice visAll ((200 : ℚ), (200 : ℚ))
        envFresh srcInv companyB = .ok env' ∧
      env'.moves = envFresh.moves ++ [mir] ∧
      (mir.state = "posted" ↔
        companyB.invoice_auto_validation = true ∧
        float_compareD srcInv.amount_total 200 envFresh.precision = 0) ∧
      (mir.state ≠ "posted" → mir.state = "draft") ∧
      (mir.messages ≠ [] ↔ float_compareD srcInv.amount_total 200 envFresh.precision ≠ 0) ∧
      (float_compareD srcInv.amount_total 200 envFresh.precision ≠ 0 →
        mir.messages = [{ dest_amount_total := 200, invoice_name := srcInv.name
                        , company_name := companyName envFresh srcInv.company_id
                        , amount_total := srcInv.amount_total }]) :=
  C3_reconciliation visAll (200, 200) envFresh srcInv companyB journalPurchaseB
    rfl rfl rfl (by simp [srcInv, lineProd])

/-- C8: with exactly one pre-existing mirror for (source, destination):
if it is in draft or cancel state it is hard-deleted and the rebuilt
mirror reuses its reference number; if it is posted it is left in place
untouched (the builder re-checked its state) and the new mirror gets a
fresh sequence name instead. -/
theorem C8_stale_reclaim (vis : Nat → Nat → Bool) (t : ℚ × ℚ) (env : Env)
    (src : AccountMove) (dest : Company) (m0 : AccountMove) (j : Journal)
    (hshare : dest.company_share_product = true)
    (hstale : mirrorsFor env src.id dest.id = [m0])
    (hj : findJournal env ((_get_destination_journal_type src.move_type).getD "") dest.id
            = some j)
    (hl : ∀ l ∈ src.invoice_line_ids.filter (fun l => l.display_type.isNone),
            l.product_id ≠ none) :
    ((m0.state = "draft" ∨ m0.state = "cancel") →
      ∃ env' mir, _inter_company_create_invoice vis t env src dest = .ok env' ∧
        env'.moves = env.moves.filter (fun m => m.id != m0.id) ++ [mir] ∧
        mir.name = m0.name ∧ mir.auto_invoice_id = some src.id) ∧
    (m0.state = "posted" →
      ∃ env' mir, _inter_company_create_invoice vis t env src dest = .ok env' ∧
        env'.moves = env.moves ++ [mir] ∧
        mir.name = freshName env.nextId ∧ mir.auto_invoice_id = some src.id) := by
  constructor
  · intro hdc
    have hsc : (m0.state == "draft" || m0.state == "cancel") = true := by
      rcases hdc with h | h <;> simp [h]
    refine ⟨builtEnv t (removeMoveById env m0.id) src dest (some m0.name),
      builtMirror t (removeMoveById env m0.id) src dest (some m0.name), ?_, rfl, ?_, ?_⟩
    · unfold _inter_company_create_invoice
      rw [check_product_share vis src dest hshare, hstale]
      show (if (m0.state == "draft" || m0.state == "cancel") = true
          then buildMirror t (removeMoveById env m0.id) src dest (some m0.name)
          else buildMirror t env src dest none) = _
      rw [if_pos hsc]
      exact buildMirror_eq t (removeMoveById env m0.id) src dest (some m0.name) j hj hl
    · simp only [builtMirror]
      rw [reconcileMirror_name, createdMirror_name]
      rfl
    · simp only [builtMirror]
      rw [reconcileMirror_auto_invoice_id, createdMirror_auto_invoice_id]
  · intro hp
    have hsc : (m0.state == "draft" || m0.state == "cancel") = false := by
      simp [hp]
    refine ⟨builtEnv t env src dest none, builtMirror t env src dest none, ?_, rfl, ?_, ?_⟩
    · unfold _inter_company_create_invoice
      rw [check_product_share vis src dest hshare, hstale]
      show (if (m0.state == "draft" || m0.state == "cancel") = true
          then buildMirror t (removeMoveById env m0.id) src dest (some m0.name)
          else buildMirror t env src dest none) = _
      rw [if_neg (by simp [hsc])]
      exact buildMirror_eq t env src dest none j hj hl
    · simp only [builtMirror]
      rw [reconcileMirror_name, createdMirror_name]
      rfl
    · simp only [builtMirror]
      rw [reconcileMirror_auto_invoice_id, createdMirror_auto_invoice_id]

/-- Witness for C8: the world `envStale` with its single draft mirror 22:
the rebuilt mirror reuses the name "MIR-B-22" and mirror 22 is gone. -/
theorem C8_stale_reclaim_witness :
    ∃ env' mir, _inter_company_create_invoice visAll ((200 : ℚ), (200 : ℚ))
        envStale srcInv companyB = .ok env' ∧
      env'.moves = envStale.moves.filter (fun m => m.id != draftMirror22.id) ++ [mir] ∧
      mir.name = draftMirror22.name ∧ mir.auto_invoice_id = some srcInv.id :=
  (C8_stale_reclaim visAll (200, 200) envStale srcInv companyB draftMirror22
    journalPurchaseB rfl rfl rfl (by simp [srcInv, lineProd])).1 (Or.inl rfl)

/-- C1: posting a source invoice through `action_post` when a posted
mirror already exists for (this source, its resolved destination company)
is a no-op apart from the core engine's own posting of the source: the
returned state is exactly `superActionPost env [i]` — no move is created,
deleted, or otherwise modified, so the set of posted mirrors of the pair
is unchanged and never contains two posted mirrors where it contained
one. -/
theorem C1_post_idempotent (vis : Nat → Nat → Bool) (totalsOf : Nat → ℚ × ℚ)
    (env : Env) (i : Nat) (src : AccountMove) (dest : Company) (m : AccountMove)
    (hsrc : findMove env i = some src)
    (hdest : _find_company_from_invoice_partner env src = some dest)
    (hm : m ∈ env.moves) (hmi : m.auto_invoice_id = some src.id)
    (hmc : m.company_id = dest.id) (hms : m.state = "posted") :
    action_post vis totalsOf env [i] = .ok (superActionPost env [i]) ∧
    (superActionPost env [i]).moves.length = env.moves.length := by
  refine ⟨?_, by simp [superActionPost]⟩
  have hid : src.id = i := by
    have h := List.find?_some hsrc
    simpa using h
  have hfm : findMove (superActionPost env [i]) i
      = some { src with state := "posted" } := by
    rw [findMove_superActionPost, hsrc]
    simp [hid]
  have hres : _find_company_from_invoice_partner (superActionPost env [i])
      { src with state := "posted" } = some dest :=
    (find_company_congr env (superActionPost env [i]) src
      { src with state := "posted" } rfl rfl).trans hdest
  have hpostedne :
      (postedMirrorsFor (superActionPost env [i]) src.id dest.id).isEmpty = false := by
    have hmem : (if m.id ∈ [i] then { m with state := "posted" } else m)
        ∈ (superActionPost env [i]).moves := List.mem_map_of_mem _ hm
    have hmem2 : (if m.id ∈ [i] then { m with state := "posted" } else m)
        ∈ postedMirrorsFor (superActionPost env [i]) src.id dest.id := by
      refine List.mem_filter.mpr ⟨hmem, ?_⟩
      by_cases h : m.id = i <;> simp [h, hmi, hmc, hms]
    cases hpm : postedMirrorsFor (superActionPost env [i]) src.id dest.id with
    | nil => rw [hpm] at hmem2; cases hmem2
    | cons a l => rfl
  have hone : action_post_one vis totalsOf (superActionPost env [i]) i
      = .ok (superActionPost env [i]) := by
    simp only [action_post_one, hfm, hres]
    by_cases hmt : src.move_type ∈ supportedTypes
    · rw [if_pos hmt]
      by_cases hag : src.auto_generated = true
      · rw [if_pos hag]
      · rw [if_neg hag, if_neg (by simp [hpostedne])]
    · rw [if_neg hmt]
  simp [action_post, action_post_loop, hone]

/-- Witness for C1: the world `envPosted`, where posted mirror 20 already
mirrors invoice 10 into company B: re-posting invoice 10 only marks it
posted and builds nothing. -/
theorem C1_post_idempotent_witness :
    action_post visAll totals200 envPosted [10] =
      .ok (superActionPost envPosted [10]) ∧
    (superActionPost envPosted [10]).moves.length = envPosted.moves.length :=
  C1_post_idempotent visAll totals200 envPosted 10 srcInv companyB postedMirror20
    rfl rfl (by simp [envPosted]) rfl rfl rfl

/-- C7 counterexample to the claim as stated: cancelling posted source 16
whose draft mirror 26 carries a diverged untaxed total (190 against the
source's 200 — the total-mismatch world the builder itself leaves behind
in draft) does NOT process the mirror to cancelled: the propagator's
origin write (line 267) runs the unskipped amount check of lines 286-301,
which raises the error naming the source, aborting the whole cascade
before any mirror reaches the cancelled state. -/
theorem C7_counterexample :
    button_cancel 10 envCancelDiverge [16] =
      .error (.amountDivergesFromSource "INV-A-16") ∧
    divergeMirror26 ∈ envCancelDiverge.moves ∧
    divergeMirror26.auto_invoice_id = some srcDiverge16.id ∧
    float_compareR divergeMirror26.amount_untaxed srcDiverge16.amount_untaxed
      divergeMirror26.currency_rounding ≠ 0 := by
  have hcmp : float_compareR (190 : ℚ) (200 : ℚ) ((100 : ℚ)⁻¹) ≠ 0 := by
    norm_num [float_compareR, float_round, round_eq]
  refine ⟨?_, by simp [envCancelDiverge], rfl, ?_⟩
  case _ =>
    have hfind : findMove envCancelDiverge 16 = some srcDiverge16 := by rfl
    have hres : _find_company_from_invoice_partner envCancelDiverge srcDiverge16
        = some companyB := by rfl
    have hmids : (envCancelDiverge.moves.filter
        (fun m => m.auto_invoice_id == some 16)).map (fun m => m.id) = [26] := by rfl
    have hA : button_draft envCancelDiverge [26]
        = .ok (superButtonDraft envCancelDiverge [26]) := by rfl
    have hnote : mkCanceledOrigin
        (companyName (superButtonDraft envCancelDiverge [26]) srcDiverge16.company_id)
        srcDiverge16.name = "A - Canceled Invoice: INV-A-16" := by rfl
    have hW : write (superButtonDraft envCancelDiverge [26]) [26]
        (setCanceledOrigin "A - Canceled Invoice: INV-A-16") false
        = .error (.amountDivergesFromSource "INV-A-16") := by
      have hfm : findMove (applyWrite (superButtonDraft envCancelDiverge [26]) [26]
          (setCanceledOrigin "A - Canceled Invoice: INV-A-16")) 26
          = some (setCanceledOrigin "A - Canceled Invoice: INV-A-16"
              { divergeMirror26 with state := "draft" }) := by rfl
      have hfs : findMove (applyWrite (superButtonDraft envCancelDiverge [26]) [26]
          (setCanceledOrigin "A - Canceled Invoice: INV-A-16")) 16
          = some srcDiverge16 := by rfl
      simp [write, writeCheckAll, writeCheckOne, hfm, hfs, setCanceledOrigin,
        divergeMirror26, srcDiverge16, srcInv, hcmp]
    have hLoop : cancelMirrorsLoop 7 envCancelDiverge srcDiverge16 [26]
        = .error (.amountDivergesFromSource "INV-A-16") := by
      show cancelMirrorsLoop (6 + 1) envCancelDiverge srcDiverge16 [26] = _
      simp only [cancelMirrorsLoop, hA, hnote, hW]
    have hPO : cancelPropagateOne 8 envCancelDiverge 16
        = .error (.amountDivergesFromSource "INV-A-16") := by
      show cancelPropagateOne (7 + 1) envCancelDiverge 16 = _
      simp only [cancelPropagateOne, hfind, hres, hmids,
        show srcDiverge16.auto_generated = false from rfl, Bool.false_eq_true,
        if_false, hLoop]
    have hPA : cancelPropagateAll 9 envCancelDiverge [16]
        = .error (.amountDivergesFromSource "INV-A-16") := by
      show cancelPropagateAll (8 + 1) envCancelDiverge [16] = _
      simp only [cancelPropagateAll, hPO]
    show button_cancel (9 + 1) envCancelDiverge [16] = _
    simp only [button_cancel, hPA]
  case _ =>
    simpa [divergeMirror26, srcDiverge16, srcInv] using hcmp

/-- C7 (amended): cancelling a non-mirror source whose counterpart
partner resolves to a managed company processes every move referencing
it via `auto_invoice_id` — regardless of destination company or state —
through draft, origin-note rewrite, cancel (the order is definitional in
`cancelMirrorsLoop`), PROVIDED the cascade's own re-entrant guards pass:
no posted move references a mirror (each mirror's reset guard) and every
mirror's untaxed total matches the source's at the mirror's own currency
rounding (each mirror's edit lock, which the origin write of line 267
triggers with no skip flag) — otherwise the guard's error aborts the
whole cascade, as the counterexample shows.  Under those conditions
(with unique ids, auto-generated mirrors and enough fuel for the
re-entrant `button_cancel`), the final state maps each such mirror to
cancelled with its origin rewritten to
"<company> - Canceled Invoice: <number>", and cancels the source. -/
theorem C7_cascade_cancel (fuel : Nat) (env : Env) (sid : Nat)
    (src : AccountMove) (c : Company)
    (hfind : findMove env sid = some src)
    (hc : _find_company_from_invoice_partner env src = some c)
    (hag : src.auto_generated = false)
    (hnodup : (env.moves.map (fun m => m.id)).Nodup)
    (hmirror : ∀ m ∈ env.moves, m.auto_invoice_id = some sid → m.auto_generated = true)
    (hnoposted : ∀ x ∈ env.moves, x.state = "posted" →
      ∀ m ∈ env.moves, m.auto_invoice_id = some sid → x.auto_invoice_id ≠ some m.id)
    (hamt : ∀ m ∈ env.moves, m.auto_invoice_id = some sid →
      float_compareR m.amount_untaxed src.amount_untaxed m.currency_rounding = 0)
    (hfuel : (env.moves.filter (fun m => m.auto_invoice_id == some sid)).length + 6 ≤ fuel) :
    button_cancel fuel env [sid] =
      .ok { env with moves := env.moves.map (cancelCascadeUpd env src) } ∧
    ∀ m ∈ env.moves, m.auto_invoice_id = some sid →
      cancelCascadeUpd env src m =
        { m with
            state := "cancel"
          , invoice_origin :=
              mkCanceledOrigin (companyName env src.company_id) src.name } := by
  have hsrcid : src.id = sid := by
    have h := List.find?_some hfind
    simpa using h
  have hsrcmem : src ∈ env.moves := List.mem_of_find?_eq_some hfind
  have inj : ∀ a ∈ env.moves, ∀ b ∈ env.moves, a.id = b.id → a = b := by
    intro a ha b hb hab
    exact List.inj_on_of_nodup_map hnodup ha hb hab
  have hnotself : ∀ m ∈ env.moves, m.auto_invoice_id = some sid → ¬ m.id = src.id := by
    intro m hm hai heq
    have hms : m = src := inj m hm src hsrcmem heq
    rw [hms] at hai
    have hgen := hmirror src hsrcmem hai
    rw [hag] at hgen
    cases hgen
  have hpart2 : ∀ m ∈ env.moves, m.auto_invoice_id = some sid →
      cancelCascadeUpd env src m =
        { m with
            state := "cancel"
          , invoice_origin :=
              mkCanceledOrigin (companyName env src.company_id) src.name } := by
    intro m hm hai
    unfold cancelCascadeUpd
    rw [if_neg (hnotself m hm hai), if_pos (by rw [hsrcid]; exact hai)]
  refine ⟨?_, hpart2⟩
  have hmemiff : ∀ a ∈ env.moves,
      (a.id ∈ (env.moves.filter (fun m => m.auto_invoice_id == some sid)).map (fun m => m.id)
        ↔ a.auto_invoice_id = some sid) := by
    intro a ha
    constructor
    · intro h
      obtain ⟨mf, hmf, hmfid⟩ := List.mem_map.mp h
      have hmf' := List.mem_filter.mp hmf
      have haeq : a = mf := inj a ha mf hmf'.1 hmfid.symm
      rw [haeq]
      simpa using hmf'.2
    · intro h
      exact List.mem_map_of_mem _ (List.mem_filter.mpr ⟨ha, by simp [h]⟩)
  have hs_loop : findMove env src.id = some src := by rw [hsrcid]; exact hfind
  have hnp_loop : ∀ mid ∈ (env.moves.filter
        (fun m => m.auto_invoice_id == some sid)).map (fun m => m.id),
      ∀ x ∈ env.moves, x.auto_invoice_id = some mid → x.state ≠ "posted" := by
    intro mid hmid x hx hxa hxs
    obtain ⟨mf, hmf, hmfid⟩ := List.mem_map.mp hmid
    have hmf' := List.mem_filter.mp hmf
    have hmfa : mf.auto_invoice_id = some sid := by simpa using hmf'.2
    exact (hnoposted x hx hxs mf hmf'.1 hmfa) (by rw [hxa, hmfid])
  have hmir_loop : ∀ mid ∈ (env.moves.filter
        (fun m => m.auto_invoice_id == some sid)).map (fun m => m.id),
      ∀ mm ∈ env.moves, mm.id = mid →
      mm.auto_generated = true ∧ mm.auto_invoice_id = some src.id ∧
      float_compareR mm.amount_untaxed src.amount_untaxed mm.currency_rounding = 0 := by
    intro mid hmid mm hmm hmmid
    obtain ⟨mf, hmf, hmfid⟩ := List.mem_map.mp hmid
    have hmf' := List.mem_filter.mp hmf
    have hmfa : mf.auto_invoice_id = some sid := by simpa using hmf'.2
    have hmmeq : mm = mf := inj mm hmm mf hmf'.1 (by rw [hmmid, hmfid])
    subst hmmeq
    refine ⟨hmirror mm hmf'.1 hmfa, ?_, hamt mm hmf'.1 hmfa⟩
    rw [hsrcid]
    exact hmfa
  have hne_loop : ∀ mid ∈ (env.moves.filter
        (fun m => m.auto_invoice_id == some sid)).map (fun m => m.id),
      mid ≠ src.id := by
    intro mid hmid
    obtain ⟨mf, hmf, hmfid⟩ := List.mem_map.mp hmid
    have hmf' := List.mem_filter.mp hmf
    have hmfa : mf.auto_invoice_id = some sid := by simpa using hmf'.2
    rw [← hmfid]
    exact hnotself mf hmf'.1 hmfa
  obtain ⟨k, rfl⟩ : ∃ k, fuel = k + 1 + 1 + 1 := ⟨fuel - 3, by omega⟩
  have hfuel_loop : ((env.moves.filter
      (fun m => m.auto_invoice_id == some sid)).map (fun m => m.id)).length + 3 ≤ k := by
    rw [List.length_map]
    omega
  have hloop := cancelMirrorsLoop_ok
    ((env.moves.filter (fun m => m.auto_invoice_id == some sid)).map (fun m => m.id))
    k env src src hfuel_loop hs_loop hnp_loop hmir_loop hne_loop
  simp only [button_cancel, cancelPropagateAll, cancelPropagateOne, hfind, hc, hag,
    Bool.false_eq_true, if_false, hloop]
  simp only [superButtonCancel, List.map_map]
  congr 2
  refine List.map_congr_left ?_
  intro a ha
  have hiff := hmemiff a ha
  by_cases h1 : a.id = sid
  · have hnotm : a.id ∉ (env.moves.filter
        (fun m => m.auto_invoice_id == some sid)).map (fun m => m.id) := by
      intro hmem
      exact hnotself a ha (hiff.mp hmem) (by rw [h1, hsrcid])
    simp only [Function.comp, if_neg hnotm, List.mem_singleton]
    rw [if_pos h1]
    unfold cancelCascadeUpd
    rw [if_pos (by rw [h1, hsrcid])]
  · by_cases h2 : a.auto_invoice_id = some sid
    · have hmem : a.id ∈ (env.moves.filter
          (fun m => m.auto_invoice_id == some sid)).map (fun m => m.id) := hiff.mpr h2
      simp only [Function.comp, if_pos hmem, List.mem_singleton]
      rw [if_neg (by simpa using h1)]
      unfold cancelCascadeUpd
      rw [if_neg (by rw [hsrcid]; simpa using h1),
        if_pos (by rw [hsrcid]; exact h2)]
    · have hnotm : a.id ∉ (env.moves.filter
          (fun m => m.auto_invoice_id == some sid)).map (fun m => m.id) := by
        intro hmem
        exact h2 (hiff.mp hmem)
      simp only [Function.comp, if_neg hnotm, List.mem_singleton]
      rw [if_neg (by simpa using h1)]
      unfold cancelCascadeUpd
      rw [if_neg (by rw [hsrcid]; simpa using h1),
        if_neg (by rw [hsrcid]; exact h2)]

/-- Witness for C7: cancelling posted invoice 10 in `envCancel` cancels
it and drives its posted mirror 20 to cancelled with the rewritten
origin note. -/
theorem C7_cascade_cancel_witness :
    button_cancel 10 envCancel [10] =
      .ok { envCancel with
        moves := envCancel.moves.map (cancelCascadeUpd envCancel srcPosted) } ∧
    ∀ m ∈ envCancel.moves, m.auto_invoice_id = some 10 →
      cancelCascadeUpd envCancel srcPosted m =
        { m with
            state := "cancel"
          , invoice_origin :=
              mkCanceledOrigin (companyName envCancel srcPosted.company_id)
                srcPosted.name } :=
  C7_cascade_cancel 10 envCancel 10 srcPosted companyB rfl rfl rfl
    (by decide)
    (by decide)
    (by decide)
    (by
      intro m hm h
      simp only [envCancel, List.mem_cons, List.mem_singleton] at hm
      rcases hm with rfl | rfl | hf
      · exact absurd h (by simp [srcPosted, srcInv])
      · simp [float_compareR, postedMirror20, srcPosted, srcInv]
      · cases hf)
    (by norm_num [envCancel, srcPosted, srcInv, postedMirror20])

end MultiCompany
